import Mathlib

/-!
Verification of the libmolgrid voxel rasterizer (`GridMaker`) against its
natural-language specification.

The repository provides `src/include/libmolgrid/grid_maker.h` (class
definition with inline bodies for the configuration setters and the
CoordinateSet-level dispatch overloads) and `src/test/test_gridmaker.cpp`.
The out-of-line bodies (`initialize` (here `gm_init`), `calc_point`, `get_bounds_1d`, the
forward/backward/relevance loops) live in a translation unit that is not
part of the sources; those are modelled from the specification, with a
doc comment on each such definition saying so.

Floating-point arithmetic is embedded as real arithmetic.
-/

namespace LibMolGrid

open scoped Classical

/-- A 3-vector of reals (models CUDA float3). -/
abbrev Vec3 := ℝ × ℝ × ℝ

/-- A 4D grid value, indexed (channel, i, j, k); models Grid(Dtype,4). -/
abbrev Grid4 := ℤ → ℤ → ℤ → ℤ → ℝ

/-- A 3D grid channel slab, indexed (i, j, k). -/
abbrev Grid3 := ℤ → ℤ → ℤ → ℝ

/-- One atom: position and base radius (one row of coords plus radii). -/
structure Atom where
  x : ℝ
  y : ℝ
  z : ℝ
  radius : ℝ

/-- C `::round` as used in grid_maker.h line 84/89: round half away from zero. -/
noncomputable def cround (x : ℝ) : ℤ :=
  if 0 ≤ x then ⌊x + 1/2⌋ else -⌊-x + 1/2⌋

/-- The GridMaker state: the data members of class GridMaker
(grid_maker.h lines 35-46). -/
structure GridMaker where
  resolution : ℝ
  dimension : ℝ
  radius_scale : ℝ
  gaussian_radius_multiple : ℝ
  final_radius_multiple : ℝ
  A : ℝ
  B : ℝ
  C : ℝ
  D : ℝ
  E : ℝ
  binary : Bool
  dim : ℤ

/-- Modelled from the spec: `final_radius_multiple` as a function of
gaussian_radius_multiple G, namely (1 + 2G²)/(2G) (spec section 4.2;
the body of `GridMaker::initialize` is not among the sources). -/
noncomputable def frmOf (grm : ℝ) : ℝ := (1 + 2 * grm ^ 2) / (2 * grm)

/-- Modelled from the spec: the quadratic-tail coefficient A cached by
`gm_init`.  The tail is the quadratic q(u) = A·u² + B·u + C in
u = d/r; A, B, C are the unique solution of the three conditions the
spec imposes (section 4.2): q(1) = exp(-2) and q'(1) = -4·exp(-2)
(value and slope of the Gaussian exp(-2u²) at u = 1), and
q(final_radius_multiple) = 0. -/
noncomputable def coefA (grm : ℝ) : ℝ :=
  Real.exp (-2) * (4 * (frmOf grm - 1) - 1) / (frmOf grm - 1) ^ 2

/-- Modelled from the spec: the quadratic-tail coefficient B cached by
`gm_init` (see `coefA`). -/
noncomputable def coefB (grm : ℝ) : ℝ := -4 * Real.exp (-2) - 2 * coefA grm

/-- Modelled from the spec: the quadratic-tail coefficient C cached by
`gm_init` (see `coefA`). -/
noncomputable def coefC (grm : ℝ) : ℝ := 5 * Real.exp (-2) + coefA grm

/-- Modelled from the spec: the backprop coefficient D cached by
`gm_init`; the spec (section 4.2) says D, E are the derivative
counterparts of A, B (df/dd = 2A·d + B on the tail), so D = 2A. -/
noncomputable def coefD (grm : ℝ) : ℝ := 2 * coefA grm

/-- Modelled from the spec: the backprop coefficient E cached by
`gm_init`; the derivative counterpart of B (see `coefD`). -/
noncomputable def coefE (grm : ℝ) : ℝ := coefB grm

/-- Modelled from the spec: the body of `GridMaker::initialize` (named
`gm_init` here; declared at grid_maker.h line 73, body not among the sources).
Per spec section 6 it stores all five configuration fields, recomputes
`dim = round(dimension/resolution) + 1`, recomputes
`final_radius_multiple = (1 + 2G²)/(2G)` and the cached density
coefficients A, B, C, D, E.  It overwrites every field
unconditionally, ignoring the prior state `s`. -/
noncomputable def gm_init (_s : GridMaker) (res d : ℝ) (bin : Bool)
    (rscale grm : ℝ) : GridMaker where
  resolution := res
  dimension := d
  radius_scale := rscale
  gaussian_radius_multiple := grm
  final_radius_multiple := frmOf grm
  A := coefA grm
  B := coefB grm
  C := coefC grm
  D := coefD grm
  E := coefE grm
  binary := bin
  dim := cround (d / res) + 1

/-- The GridMaker constructor (grid_maker.h lines 59-62): the member
initializer list stores the arguments, sets `final_radius_multiple` to 0
and leaves A..E uninitialized (modelled as 0), then the body calls
`gm_init`, which overwrites everything. -/
noncomputable def GridMaker.construct (res d : ℝ) (bin : Bool)
    (rscale grm : ℝ) : GridMaker :=
  gm_init
    { resolution := res, dimension := d, radius_scale := rscale,
      gaussian_radius_multiple := grm, final_radius_multiple := 0,
      A := 0, B := 0, C := 0, D := 0, E := 0, binary := bin, dim := 0 }
    res d bin rscale grm

/-- set_resolution (grid_maker.h line 84):
`resolution = res; dim = ::round(dimension / resolution) + 1;` -/
noncomputable def set_resolution (s : GridMaker) (res : ℝ) : GridMaker :=
  { s with resolution := res, dim := cround (s.dimension / res) + 1 }

/-- set_dimension (grid_maker.h line 89):
`dimension = d; dim = ::round(dimension / resolution) + 1;` -/
noncomputable def set_dimension (s : GridMaker) (d : ℝ) : GridMaker :=
  { s with dimension := d, dim := cround (d / s.resolution) + 1 }

/-- set_binary (grid_maker.h line 96): `binary = b;` -/
def set_binary (s : GridMaker) (b : Bool) : GridMaker :=
  { s with binary := b }

/-- Modelled from the spec: `get_grid_origin` (declared at grid_maker.h
line 106, body not among the sources); spec section 4.1:
grid_origin = grid_center - dimension/2 on each axis. -/
noncomputable def get_grid_origin (s : GridMaker) (c : Vec3) : Vec3 :=
  (c.1 - s.dimension / 2, c.2.1 - s.dimension / 2, c.2.2 - s.dimension / 2)

/-- Modelled from the spec: `get_bounds_1d` (declared at grid_maker.h
lines 488-489, body not among the sources); spec section 4.3:
lo = max(0, ceil((c - R - origin)/resolution)),
hi = min(dim - 1, floor((c + R - origin)/resolution)), inclusive. -/
noncomputable def get_bounds_1d (s : GridMaker) (grid_origin coord densityrad : ℝ) :
    ℤ × ℤ :=
  (max 0 ⌈(coord - densityrad - grid_origin) / s.resolution⌉,
   min (s.dim - 1) ⌊(coord + densityrad - grid_origin) / s.resolution⌋)

/-- The cutoff radius of an atom: final_radius_multiple · radius_scale ·
base radius (spec section 4.3). -/
noncomputable def densityrad (s : GridMaker) (a : Atom) : ℝ :=
  s.final_radius_multiple * s.radius_scale * a.radius

/-- Per-axis bounds of an atom's box (x axis). -/
noncomputable def boundsX (s : GridMaker) (origin : Vec3) (a : Atom) : ℤ × ℤ :=
  get_bounds_1d s origin.1 a.x (densityrad s a)

/-- Per-axis bounds of an atom's box (y axis). -/
noncomputable def boundsY (s : GridMaker) (origin : Vec3) (a : Atom) : ℤ × ℤ :=
  get_bounds_1d s origin.2.1 a.y (densityrad s a)

/-- Per-axis bounds of an atom's box (z axis). -/
noncomputable def boundsZ (s : GridMaker) (origin : Vec3) (a : Atom) : ℤ × ℤ :=
  get_bounds_1d s origin.2.2 a.z (densityrad s a)

/-- Voxel (i,j,k) lies in the bounding box of atom `a`. -/
noncomputable def InBox (s : GridMaker) (origin : Vec3) (a : Atom)
    (i j k : ℤ) : Prop :=
  (boundsX s origin a).1 ≤ i ∧ i ≤ (boundsX s origin a).2 ∧
  (boundsY s origin a).1 ≤ j ∧ j ≤ (boundsY s origin a).2 ∧
  (boundsZ s origin a).1 ≤ k ∧ k ≤ (boundsZ s origin a).2

/-- World coordinates of voxel (i,j,k):
origin + (i,j,k)·resolution (spec section 4.1). -/
noncomputable def grid_point (s : GridMaker) (origin : Vec3) (i j k : ℤ) : Vec3 :=
  (origin.1 + i * s.resolution, origin.2.1 + j * s.resolution,
   origin.2.2 + k * s.resolution)

/-- Euclidean distance from atom position (ax,ay,az) to point p. -/
noncomputable def adist (ax ay az : ℝ) (p : Vec3) : ℝ :=
  Real.sqrt ((ax - p.1) ^ 2 + (ay - p.2.1) ^ 2 + (az - p.2.2) ^ 2)

/-- Modelled from the spec: `calc_point` (declared at grid_maker.h
lines 497-499, body not among the sources); spec section 4.2, the
piecewise density f(d; r) with r = radius_scale · ar:
exp(-2d²/r²) for d < r; the cached quadratic A·(d/r)² + B·(d/r) + C for
r ≤ d < final_radius_multiple·r (the tail is a polynomial in d/r since
A, B, C are per-configuration constants); 0 beyond. -/
noncomputable def calc_point (s : GridMaker) (ax ay az ar : ℝ) (p : Vec3) : ℝ :=
  let d := adist ax ay az p
  let r := s.radius_scale * ar
  if d < r then Real.exp (-2 * d ^ 2 / r ^ 2)
  else if d < s.final_radius_multiple * r then
    s.A * (d / r) ^ 2 + s.B * (d / r) + s.C
  else 0

/-- One accumulation step into a voxel (spec sections 4.2 and 4.4):
binary mode does out = max(out, f ≥ 0.5 ? 1 : 0); otherwise out += f. -/
noncomputable def accum_value (s : GridMaker) (old f : ℝ) : ℝ :=
  if s.binary then max old (if 1/2 ≤ f then 1 else 0) else old + f

/-- Modelled from the spec: the per-atom update of indexed-mode
`set_atoms` (declared at grid_maker.h lines 448-450, body not among the
sources); spec section 4.4 step 3b: with t = type_index[n], skip the
atom if t is outside [0, T); otherwise accumulate its density into
channel t over its bounding box. -/
noncomputable def add_atom_indexed (s : GridMaker) (origin : Vec3) (T : ℕ)
    (a : Atom) (ty : ℤ) (g : Grid4) : Grid4 :=
  fun t i j k =>
    if 0 ≤ ty ∧ ty < (T : ℤ) ∧ t = ty ∧ InBox s origin a i j k then
      accum_value s (g t i j k)
        (calc_point s a.x a.y a.z a.radius (grid_point s origin i j k))
    else g t i j k

/-- Modelled from the spec: the per-atom update of vector-mode
`set_atoms` (declared at grid_maker.h lines 461-464, body not among the
sources); spec section 4.4 step 3c: for each channel t in [0, T),
accumulate type_vector[n][t] · f(d) over the atom's bounding box. -/
noncomputable def add_atom_vector (s : GridMaker) (origin : Vec3) (T : ℕ)
    (a : Atom) (tv : ℤ → ℝ) (g : Grid4) : Grid4 :=
  fun t i j k =>
    if 0 ≤ t ∧ t < (T : ℤ) ∧ InBox s origin a i j k then
      accum_value s (g t i j k)
        (tv t * calc_point s a.x a.y a.z a.radius (grid_point s origin i j k))
    else g t i j k

/-- Modelled from the spec: indexed-mode `set_atoms`, the loop over all
atoms accumulating into the grid. -/
noncomputable def set_atoms_indexed (s : GridMaker) (origin : Vec3) (T : ℕ)
    (atoms : List (Atom × ℤ)) (g0 : Grid4) : Grid4 :=
  atoms.foldl (fun g p => add_atom_indexed s origin T p.1 p.2 g) g0

/-- Modelled from the spec: vector-mode `set_atoms`, the loop over all
atoms accumulating into the grid. -/
noncomputable def set_atoms_vector (s : GridMaker) (origin : Vec3) (T : ℕ)
    (atoms : List (Atom × (ℤ → ℝ))) (g0 : Grid4) : Grid4 :=
  atoms.foldl (fun g p => add_atom_vector s origin T p.1 p.2 g) g0

/-- The all-zero grid that forward resets its output buffer to; as a
function of the incoming buffer contents it ignores them. -/
def zero_grid (_out : Grid4) : Grid4 := fun _ _ _ _ => 0

/-- Modelled from the spec: indexed-mode CPU `forward` (declared at
grid_maker.h lines 191-194, body not among the sources); spec section
4.4: compute the grid origin, zero the output, then accumulate every
atom over its bounding box into its channel. -/
noncomputable def forward_indexed (s : GridMaker) (center : Vec3) (T : ℕ)
    (atoms : List (Atom × ℤ)) (out : Grid4) : Grid4 :=
  set_atoms_indexed s (get_grid_origin s center) T atoms (zero_grid out)

/-- Modelled from the spec: vector-mode CPU `forward` (declared at
grid_maker.h lines 216-219, body not among the sources). -/
noncomputable def forward_vector (s : GridMaker) (center : Vec3) (T : ℕ)
    (atoms : List (Atom × (ℤ → ℝ))) (out : Grid4) : Grid4 :=
  set_atoms_vector s (get_grid_origin s center) T atoms (zero_grid out)

/-- The integers from lo to hi inclusive (empty when hi < lo). -/
def box_list (lo hi : ℤ) : List ℤ :=
  (List.range (hi + 1 - lo).toNat).map (fun n : ℕ => lo + (n : ℤ))

/-- Sum of a per-voxel quantity over an atom's bounding box. -/
noncomputable def boxSum (s : GridMaker) (origin : Vec3) (a : Atom)
    (f : ℤ → ℤ → ℤ → ℝ) : ℝ :=
  ((box_list (boundsX s origin a).1 (boundsX s origin a).2).map (fun i =>
    ((box_list (boundsY s origin a).1 (boundsY s origin a).2).map (fun j =>
      ((box_list (boundsZ s origin a).1 (boundsZ s origin a).2).map (fun k =>
        f i j k)).sum)).sum)).sum

/-- Modelled from the spec: the radial derivative df/dd of the density
(spec section 4.2): -(4d/r²)·exp(-2d²/r²) in the Gaussian region,
(2A·(d/r) + B)/r on the quadratic tail, 0 beyond. -/
noncomputable def density_deriv (s : GridMaker) (d r : ℝ) : ℝ :=
  if d < r then -(4 * d / r ^ 2) * Real.exp (-2 * d ^ 2 / r ^ 2)
  else if d < s.final_radius_multiple * r then (2 * s.A * (d / r) + s.B) / r
  else 0

/-- Modelled from the spec: the Cartesian gradient of the density with
respect to the atom position (spec section 4.2):
(df/dd)·(a - p)/d componentwise, with d = 0 special-cased to zero. -/
noncomputable def density_grad (s : GridMaker) (ax ay az ar : ℝ) (p : Vec3) : Vec3 :=
  let d := adist ax ay az p
  let r := s.radius_scale * ar
  if d = 0 then (0, 0, 0)
  else
    (density_deriv s d r * (ax - p.1) / d,
     density_deriv s d r * (ay - p.2.1) / d,
     density_deriv s d r * (az - p.2.2) / d)

/-- Modelled from the spec: `calc_atom_gradient_cpu` (declared at
grid_maker.h line 470, body not among the sources); spec section 4.5:
the atom-position gradient accumulated over the atom's bounding box from
one channel slab of the upstream gradient. -/
noncomputable def calc_atom_gradient_cpu (s : GridMaker) (origin : Vec3)
    (a : Atom) (diffT : Grid3) : Vec3 :=
  (boxSum s origin a (fun i j k =>
     diffT i j k * (density_grad s a.x a.y a.z a.radius (grid_point s origin i j k)).1),
   boxSum s origin a (fun i j k =>
     diffT i j k * (density_grad s a.x a.y a.z a.radius (grid_point s origin i j k)).2.1),
   boxSum s origin a (fun i j k =>
     diffT i j k * (density_grad s a.x a.y a.z a.radius (grid_point s origin i j k)).2.2))

/-- Modelled from the spec: `calc_type_gradient_cpu` (declared at
grid_maker.h line 474, body not among the sources); spec section 4.5:
type_gradients[n][t] accumulates diff[t][i][j][k] · f(d) over the
atom's bounding box (the derivative of w·f with respect to w is f). -/
noncomputable def calc_type_gradient_cpu (s : GridMaker) (origin : Vec3)
    (a : Atom) (diffT : Grid3) : ℝ :=
  boxSum s origin a (fun i j k =>
    diffT i j k * calc_point s a.x a.y a.z a.radius (grid_point s origin i j k))

/-- Modelled from the spec: the vector-mode atom-position gradient,
summed over channels t in [0, T) with weight type_vector[n][t]
(spec section 4.5). -/
noncomputable def atom_gradient_vector (s : GridMaker) (origin : Vec3) (T : ℕ)
    (a : Atom) (tv : ℤ → ℝ) (diff : Grid4) : Vec3 :=
  (((List.range T).map (fun t =>
     tv (t : ℤ) * (calc_atom_gradient_cpu s origin a (diff (t : ℤ))).1)).sum,
   ((List.range T).map (fun t =>
     tv (t : ℤ) * (calc_atom_gradient_cpu s origin a (diff (t : ℤ))).2.1)).sum,
   ((List.range T).map (fun t =>
     tv (t : ℤ) * (calc_atom_gradient_cpu s origin a (diff (t : ℤ))).2.2)).sum)

/-- Modelled from the spec: indexed-mode CPU `backward` (declared at
grid_maker.h lines 317-320, body not among the sources); produces the
per-atom position gradients, skipping atoms with out-of-range types. -/
noncomputable def backward_indexed (s : GridMaker) (center : Vec3) (T : ℕ)
    (atoms : List (Atom × ℤ)) (diff : Grid4) : ℕ → Vec3 :=
  fun n =>
    match atoms[n]? with
    | some p =>
        if 0 ≤ p.2 ∧ p.2 < (T : ℤ) then
          calc_atom_gradient_cpu s (get_grid_origin s center) p.1 (diff p.2)
        else (0, 0, 0)
    | none => (0, 0, 0)

/-- Modelled from the spec: vector-mode CPU `backward` (declared at
grid_maker.h lines 346-350, body not among the sources); produces the
per-atom position gradients and the per-atom per-channel type
gradients. -/
noncomputable def backward_vector (s : GridMaker) (center : Vec3) (T : ℕ)
    (atoms : List (Atom × (ℤ → ℝ))) (diff : Grid4) :
    (ℕ → Vec3) × (ℕ → ℤ → ℝ) :=
  (fun n =>
     match atoms[n]? with
     | some p => atom_gradient_vector s (get_grid_origin s center) T p.1 p.2 diff
     | none => (0, 0, 0),
   fun n t =>
     match atoms[n]? with
     | some p =>
         if 0 ≤ t ∧ t < (T : ℤ) then
           calc_type_gradient_cpu s (get_grid_origin s center) p.1 (diff t)
         else 0
     | none => 0)

/-- Modelled from the spec: `calc_atom_relevance_cpu` (declared at
grid_maker.h line 479, body not among the sources); spec section 4.6:
over the atom's bounding box, when the total density is positive add
diff · (own contribution / total density), else zero. -/
noncomputable def calc_atom_relevance_cpu (s : GridMaker) (origin : Vec3)
    (a : Atom) (densityT diffT : Grid3) : ℝ :=
  boxSum s origin a (fun i j k =>
    if 0 < densityT i j k then
      diffT i j k *
        calc_point s a.x a.y a.z a.radius (grid_point s origin i j k) /
        densityT i j k
    else 0)

/-- Modelled from the spec: indexed-mode CPU `backward_relevance`
(declared at grid_maker.h lines 417-421, body not among the sources);
redistributes the grid relevance in `diff` onto atoms, skipping atoms
with out-of-range types. -/
noncomputable def backward_relevance_atoms (s : GridMaker) (center : Vec3)
    (T : ℕ) (atoms : List (Atom × ℤ)) (density diff : Grid4) : ℕ → ℝ :=
  fun n =>
    match atoms[n]? with
    | some p =>
        if 0 ≤ p.2 ∧ p.2 < (T : ℤ) then
          calc_atom_relevance_cpu s (get_grid_origin s center) p.1
            (density p.2) (diff p.2)
        else 0
    | none => 0

/-- A CoordinateSet: atoms (coords and radii) plus exactly one typing
descriptor, indexed (one channel id per atom) or vector (one weight
vector per atom); `none` models an absent descriptor. -/
structure CoordinateSet where
  atoms : List Atom
  type_index : Option (List ℤ)
  type_vector : Option (List (ℤ → ℝ))

/-- CoordinateSet.has_indexed_types: the indexed typing is present. -/
def CoordinateSet.has_indexed_types (cs : CoordinateSet) : Bool :=
  cs.type_index.isSome

/-- CoordinateSet.has_vector_types: the vector typing is present. -/
def CoordinateSet.has_vector_types (cs : CoordinateSet) : Bool :=
  cs.type_vector.isSome

/-- The CoordinateSet-level forward overload (grid_maker.h lines
113-120, body in the header): dispatches on has_indexed_types to the
indexed-mode forward, otherwise to the vector-mode forward; it has no
error path. -/
noncomputable def forward_cs (s : GridMaker) (center : Vec3) (T : ℕ)
    (cs : CoordinateSet) (out : Grid4) : Except String Grid4 :=
  if cs.has_indexed_types then
    .ok (forward_indexed s center T (cs.atoms.zip (cs.type_index.getD [])) out)
  else
    .ok (forward_vector s center T (cs.atoms.zip (cs.type_vector.getD [])) out)

/-- The CoordinateSet-level backward overload producing type gradients
(grid_maker.h lines 243-251, body in the header): requires vector
types, else throws std::invalid_argument before doing anything. -/
noncomputable def backward_cs_vec (s : GridMaker) (center : Vec3) (T : ℕ)
    (cs : CoordinateSet) (diff : Grid4) :
    Except String ((ℕ → Vec3) × (ℕ → ℤ → ℝ)) :=
  if cs.has_vector_types then
    .ok (backward_vector s center T (cs.atoms.zip (cs.type_vector.getD [])) diff)
  else
    .error "Vector types missing from coordinate set"

/-- The CoordinateSet-level backward overload producing only atom
gradients (grid_maker.h lines 261-269, body in the header): requires
indexed types, else throws std::invalid_argument before doing
anything. -/
noncomputable def backward_cs_idx (s : GridMaker) (center : Vec3) (T : ℕ)
    (cs : CoordinateSet) (diff : Grid4) : Except String (ℕ → Vec3) :=
  if cs.has_indexed_types then
    .ok (backward_indexed s center T (cs.atoms.zip (cs.type_index.getD [])) diff)
  else
    .error "Index types missing from coordinate set"

/-- The CoordinateSet-level backward_relevance overload (grid_maker.h
lines 377-386, body in the header): requires indexed types, else throws
std::invalid_argument before doing anything; vector typing is never
accepted. -/
noncomputable def backward_relevance_cs (s : GridMaker) (center : Vec3) (T : ℕ)
    (cs : CoordinateSet) (density diff : Grid4) : Except String (ℕ → ℝ) :=
  if cs.has_indexed_types then
    .ok (backward_relevance_atoms s center T (cs.atoms.zip (cs.type_index.getD []))
          density diff)
  else
    .error "Index types missing from coordinate set in backward relevance"

/-- Exception semantics of the vector backward overload as seen by a
caller holding the output buffers: a thrown exception leaves the
caller's gradient buffers exactly as they were. -/
noncomputable def run_backward_cs_vec (s : GridMaker) (center : Vec3) (T : ℕ)
    (cs : CoordinateSet) (diff : Grid4) (ag0 : ℕ → Vec3) (tg0 : ℕ → ℤ → ℝ) :
    ((ℕ → Vec3) × (ℕ → ℤ → ℝ)) × Option String :=
  match backward_cs_vec s center T cs diff with
  | .ok r => (r, none)
  | .error e => ((ag0, tg0), some e)

/-- Exception semantics of the indexed backward overload as seen by a
caller holding the output buffer. -/
noncomputable def run_backward_cs_idx (s : GridMaker) (center : Vec3) (T : ℕ)
    (cs : CoordinateSet) (diff : Grid4) (ag0 : ℕ → Vec3) :
    (ℕ → Vec3) × Option String :=
  match backward_cs_idx s center T cs diff with
  | .ok r => (r, none)
  | .error e => (ag0, some e)

/-- Exception semantics of backward_relevance as seen by a caller
holding the output buffer. -/
noncomputable def run_backward_relevance_cs (s : GridMaker) (center : Vec3)
    (T : ℕ) (cs : CoordinateSet) (density diff : Grid4) (rel0 : ℕ → ℝ) :
    (ℕ → ℝ) × Option String :=
  match backward_relevance_cs s center T cs density diff with
  | .ok r => (r, none)
  | .error e => (rel0, some e)

/-! ## Helper lemmas -/

lemma mem_box_list {lo hi i : ℤ} : i ∈ box_list lo hi ↔ lo ≤ i ∧ i ≤ hi := by
  simp only [box_list, List.mem_map, List.mem_range]
  constructor
  · rintro ⟨n, hn, rfl⟩
    omega
  · rintro ⟨h1, h2⟩
    exact ⟨(i - lo).toNat, by omega, by omega⟩

lemma add_atom_indexed_eq_self {s : GridMaker} {origin : Vec3} {T : ℕ}
    {a : Atom} {ty : ℤ} (g : Grid4)
    (h : ∀ t i j k, ¬(0 ≤ ty ∧ ty < (T : ℤ) ∧ t = ty ∧ InBox s origin a i j k)) :
    add_atom_indexed s origin T a ty g = g := by
  funext t i j k
  exact if_neg (h t i j k)

lemma set_atoms_indexed_middle {s : GridMaker} {origin : Vec3} {T : ℕ}
    (l1 l2 : List (Atom × ℤ)) (p : Atom × ℤ) (g0 : Grid4)
    (h : ∀ g, add_atom_indexed s origin T p.1 p.2 g = g) :
    set_atoms_indexed s origin T (l1 ++ p :: l2) g0 =
      set_atoms_indexed s origin T (l1 ++ l2) g0 := by
  simp only [set_atoms_indexed, List.foldl_append, List.foldl_cons, h]

lemma boxSum_eq_zero {s : GridMaker} {origin : Vec3} {a : Atom}
    {f : ℤ → ℤ → ℤ → ℝ}
    (h : ∀ i j k, InBox s origin a i j k → f i j k = 0) :
    boxSum s origin a f = 0 := by
  unfold boxSum
  apply List.sum_eq_zero
  intro x hx
  obtain ⟨i, hi, rfl⟩ := List.mem_map.mp hx
  apply List.sum_eq_zero
  intro y hy
  obtain ⟨j, hj, rfl⟩ := List.mem_map.mp hy
  apply List.sum_eq_zero
  intro z hz
  obtain ⟨k, hk, rfl⟩ := List.mem_map.mp hz
  exact h i j k ⟨(mem_box_list.mp hi).1, (mem_box_list.mp hi).2,
    (mem_box_list.mp hj).1, (mem_box_list.mp hj).2,
    (mem_box_list.mp hk).1, (mem_box_list.mp hk).2⟩

lemma one_lt_frmOf {grm : ℝ} (h : 0 < grm) : 1 < frmOf grm := by
  rw [frmOf, lt_div_iff₀ (by positivity)]
  nlinarith

lemma coef_sum (grm : ℝ) :
    coefA grm + coefB grm + coefC grm = Real.exp (-2) := by
  unfold coefB coefC
  ring

lemma coef_at_frm {grm : ℝ} (h : frmOf grm - 1 ≠ 0) :
    coefA grm * frmOf grm ^ 2 + coefB grm * frmOf grm + coefC grm = 0 := by
  simp only [coefB, coefC, coefA]
  field_simp
  ring

/-! ## Claim theorems -/

/-- C3: forward zeroes its output grid before accumulating: for any two
initial contents of the output buffer, the grids produced by the
indexed-mode, vector-mode and CoordinateSet-level forward are
identical. -/
theorem forward_zeroes_output (s : GridMaker) (center : Vec3) (T : ℕ)
    (iatoms : List (Atom × ℤ)) (vatoms : List (Atom × (ℤ → ℝ)))
    (cs : CoordinateSet) (out1 out2 : Grid4) :
    forward_indexed s center T iatoms out1 = forward_indexed s center T iatoms out2 ∧
    forward_vector s center T vatoms out1 = forward_vector s center T vatoms out2 ∧
    forward_cs s center T cs out1 = forward_cs s center T cs out2 :=
  ⟨rfl, rfl, rfl⟩

/-- C10: the CoordinateSet-level forward accepts either typing mode
without error: it equals the indexed-mode forward on the indexed data
when indexed types are present, and otherwise equals the vector-mode
forward on the vector data; it always returns a grid and never a
missing-typing error. -/
theorem forward_cs_dispatch_total (s : GridMaker) (center : Vec3) (T : ℕ)
    (cs : CoordinateSet) (out : Grid4) :
    (cs.has_indexed_types = true →
      forward_cs s center T cs out =
        .ok (forward_indexed s center T (cs.atoms.zip (cs.type_index.getD [])) out)) ∧
    (cs.has_indexed_types = false →
      forward_cs s center T cs out =
        .ok (forward_vector s center T (cs.atoms.zip (cs.type_vector.getD [])) out)) ∧
    ∃ g, forward_cs s center T cs out = .ok g := by
  unfold forward_cs
  by_cases h : cs.has_indexed_types <;> simp [h]

/-- C7: each backward overload on a CoordinateSet throws
std::invalid_argument when the set lacks the typing mode it requires
(vector types for the type-gradient overload, indexed types for the
atom-gradient overload and for backward_relevance), and in every such
case the caller's output buffers are left unchanged. -/
theorem backward_missing_typing_errors (s : GridMaker) (center : Vec3) (T : ℕ)
    (cs : CoordinateSet) (density diff : Grid4) (ag0 : ℕ → Vec3)
    (tg0 : ℕ → ℤ → ℝ) (rel0 : ℕ → ℝ) :
    (cs.has_vector_types = false →
      run_backward_cs_vec s center T cs diff ag0 tg0 =
        ((ag0, tg0), some "Vector types missing from coordinate set")) ∧
    (cs.has_indexed_types = false →
      run_backward_cs_idx s center T cs diff ag0 =
        (ag0, some "Index types missing from coordinate set")) ∧
    (cs.has_indexed_types = false →
      run_backward_relevance_cs s center T cs density diff rel0 =
        (rel0, some "Index types missing from coordinate set in backward relevance")) := by
  refine ⟨fun h => ?_, fun h => ?_, fun h => ?_⟩ <;>
    simp [run_backward_cs_vec, run_backward_cs_idx, run_backward_relevance_cs,
      backward_cs_vec, backward_cs_idx, backward_relevance_cs, h]

/-- Witness for C7 at a CoordinateSet with no typing information at all:
all three overloads report the missing typing and leave the buffers
untouched. -/
theorem backward_missing_typing_errors_witness :
    run_backward_cs_vec (GridMaker.construct 1 6 false 1 1) (0, 0, 0) 1
        ⟨[], none, none⟩ (fun _ _ _ _ => 0) (fun _ => (0, 0, 0)) (fun _ _ => 0) =
      (((fun _ => (0, 0, 0)), fun _ _ => 0),
        some "Vector types missing from coordinate set") ∧
    run_backward_cs_idx (GridMaker.construct 1 6 false 1 1) (0, 0, 0) 1
        ⟨[], none, none⟩ (fun _ _ _ _ => 0) (fun _ => (0, 0, 0)) =
      ((fun _ => (0, 0, 0)), some "Index types missing from coordinate set") ∧
    run_backward_relevance_cs (GridMaker.construct 1 6 false 1 1) (0, 0, 0) 1
        ⟨[], none, none⟩ (fun _ _ _ _ => 0) (fun _ _ _ _ => 0) (fun _ => 0) =
      ((fun _ => 0),
        some "Index types missing from coordinate set in backward relevance") :=
  ⟨(backward_missing_typing_errors (GridMaker.construct 1 6 false 1 1) (0, 0, 0) 1
      ⟨[], none, none⟩ (fun _ _ _ _ => 0) (fun _ _ _ _ => 0) (fun _ => (0, 0, 0))
      (fun _ _ => 0) (fun _ => 0)).1 rfl,
   (backward_missing_typing_errors (GridMaker.construct 1 6 false 1 1) (0, 0, 0) 1
      ⟨[], none, none⟩ (fun _ _ _ _ => 0) (fun _ _ _ _ => 0) (fun _ => (0, 0, 0))
      (fun _ _ => 0) (fun _ => 0)).2.1 rfl,
   (backward_missing_typing_errors (GridMaker.construct 1 6 false 1 1) (0, 0, 0) 1
      ⟨[], none, none⟩ (fun _ _ _ _ => 0) (fun _ _ _ _ => 0) (fun _ => (0, 0, 0))
      (fun _ _ => 0) (fun _ => 0)).2.2 rfl⟩

/-- Configurations reachable through the configuration surface: a call
of initialize (from any prior state, which also covers every freshly
constructed GridMaker, since the constructor ends in initialize),
followed by any sequence of set_resolution, set_dimension,
set_binary. -/
inductive Reachable : GridMaker → Prop where
  | init (s : GridMaker) (res d : ℝ) (bin : Bool) (rscale grm : ℝ) :
      Reachable (gm_init s res d bin rscale grm)
  | set_res (s : GridMaker) (r : ℝ) : Reachable s → Reachable (set_resolution s r)
  | set_dim (s : GridMaker) (d : ℝ) : Reachable s → Reachable (set_dimension s d)
  | set_bin (s : GridMaker) (b : Bool) : Reachable s → Reachable (set_binary s b)

/-- C4: every configuration reachable via initialize, set_resolution or
set_dimension satisfies dim = round(dimension / resolution) + 1
exactly; every setter that changes resolution or dimension recomputes
dim. -/
theorem dim_recomputed_invariant (s : GridMaker) (h : Reachable s) :
    s.dim = cround (s.dimension / s.resolution) + 1 := by
  induction h with
  | init s res d bin rscale grm => rfl
  | set_res s r _ _ => rfl
  | set_dim s d _ _ => rfl
  | set_bin s b _ ih => exact ih

/-- Witness for C4 at the configuration initialize(res=1, d=2). -/
theorem dim_recomputed_invariant_witness :
    Reachable (gm_init (GridMaker.construct 1 6 false 1 1) 1 2 false 1 1) ∧
    (gm_init (GridMaker.construct 1 6 false 1 1) 1 2 false 1 1).dim =
      cround ((gm_init (GridMaker.construct 1 6 false 1 1) 1 2 false 1 1).dimension /
        (gm_init (GridMaker.construct 1 6 false 1 1) 1 2 false 1 1).resolution) + 1 :=
  ⟨Reachable.init _ 1 2 false 1 1,
   dim_recomputed_invariant _ (Reachable.init _ 1 2 false 1 1)⟩

/-- The property asserted by claim C5 at parameters
(s, res, d, bin, rscale, grm): after initialize (from any prior state
s) and after construction, final_radius_multiple equals
(1 + 2G²)/(2G), is 1.5 at the default G = 1, and is never the 0 stored
by the constructor's member initializer list. -/
def FinalRadiusSpec (s : GridMaker) (res d : ℝ) (bin : Bool) (rscale grm : ℝ) : Prop :=
  (gm_init s res d bin rscale grm).final_radius_multiple =
      (1 + 2 * grm ^ 2) / (2 * grm) ∧
  (GridMaker.construct res d bin rscale grm).final_radius_multiple =
      (1 + 2 * grm ^ 2) / (2 * grm) ∧
  (GridMaker.construct res d bin rscale 1).final_radius_multiple = 3 / 2 ∧
  (gm_init s res d bin rscale grm).final_radius_multiple ≠ 0 ∧
  (GridMaker.construct res d bin rscale grm).final_radius_multiple ≠ 0

/-- C5: for every gaussian_radius_multiple G > 0 passed to the
constructor or to initialize, afterwards final_radius_multiple equals
(1 + 2G²)/(2G) (1.5 at G = 1); initialize overwrites the 0 stored by
the constructor's initializer list unconditionally, so no constructed
GridMaker is left with final_radius_multiple = 0. -/
theorem final_radius_multiple_overwritten (s : GridMaker) (res d : ℝ)
    (bin : Bool) (rscale grm : ℝ) (h : 0 < grm) :
    FinalRadiusSpec s res d bin rscale grm := by
  have hpos : 0 < (1 + 2 * grm ^ 2) / (2 * grm) := by positivity
  refine ⟨rfl, rfl, ?_, ?_, ?_⟩
  · norm_num [GridMaker.construct, gm_init, frmOf]
  · exact fun hzero => absurd hzero (by simpa [gm_init, frmOf] using hpos.ne')
  · exact fun hzero => absurd hzero
      (by simpa [GridMaker.construct, gm_init, frmOf] using hpos.ne')

/-- Witness for C5 at a non-default G = 2: final_radius_multiple
becomes (1 + 2·4)/4 = 9/4, not 0. -/
theorem final_radius_multiple_overwritten_witness :
    (0 : ℝ) < 2 ∧ FinalRadiusSpec (GridMaker.construct 1 6 false 1 1) 1 6 false 1 2 :=
  ⟨by norm_num,
   final_radius_multiple_overwritten (GridMaker.construct 1 6 false 1 1) 1 6 false 1 2
     (by norm_num)⟩

/-- C8: an indexed-mode forward call that includes an atom whose type
index is negative or ≥ T raises no error (the model is total) and the
atom contributes nothing: the output grid equals the grid computed from
the same inputs with that atom removed. -/
theorem forward_skips_invalid_type_index (s : GridMaker) (center : Vec3) (T : ℕ)
    (l1 l2 : List (Atom × ℤ)) (a : Atom) (ty : ℤ) (out : Grid4)
    (h : ty < 0 ∨ (T : ℤ) ≤ ty) :
    forward_indexed s center T (l1 ++ (a, ty) :: l2) out =
      forward_indexed s center T (l1 ++ l2) out := by
  unfold forward_indexed
  apply set_atoms_indexed_middle
  intro g
  apply add_atom_indexed_eq_self
  intro t i j k hc
  obtain ⟨h1, h2, -⟩ := hc
  omega

/-- Witness for C8: one atom with the negative sentinel type -1 in a
one-channel grid contributes nothing. -/
theorem forward_skips_invalid_type_index_witness :
    ((-1 : ℤ) < 0 ∨ ((1 : ℕ) : ℤ) ≤ -1) ∧
    forward_indexed (GridMaker.construct 1 2 false 1 1) (1, 1, 1) 1
        [(⟨0, 0, 0, 1⟩, -1)] (fun _ _ _ _ => 0) =
      forward_indexed (GridMaker.construct 1 2 false 1 1) (1, 1, 1) 1 []
        (fun _ _ _ _ => 0) :=
  ⟨Or.inl (by norm_num),
   forward_skips_invalid_type_index (GridMaker.construct 1 2 false 1 1) (1, 1, 1) 1
     [] [] ⟨0, 0, 0, 1⟩ (-1) (fun _ _ _ _ => 0) (Or.inl (by norm_num))⟩

/-- C2: get_bounds_1d returns the inclusive index interval
[max(0, ceil((c - R - o)/res)), min(dim - 1, floor((c + R - o)/res))],
and whenever that interval is empty (hi < lo) on some axis the atom
contributes to no voxel: forward with that atom present equals forward
with it removed, with no error. -/
theorem get_bounds_formula_and_skip (s : GridMaker) (center : Vec3) (T : ℕ)
    (l1 l2 : List (Atom × ℤ)) (a : Atom) (ty : ℤ) (out : Grid4)
    (h : (boundsX s (get_grid_origin s center) a).2 <
           (boundsX s (get_grid_origin s center) a).1 ∨
         (boundsY s (get_grid_origin s center) a).2 <
           (boundsY s (get_grid_origin s center) a).1 ∨
         (boundsZ s (get_grid_origin s center) a).2 <
           (boundsZ s (get_grid_origin s center) a).1) :
    (∀ o c R, get_bounds_1d s o c R =
      (max 0 ⌈(c - R - o) / s.resolution⌉,
       min (s.dim - 1) ⌊(c + R - o) / s.resolution⌋)) ∧
    forward_indexed s center T (l1 ++ (a, ty) :: l2) out =
      forward_indexed s center T (l1 ++ l2) out := by
  constructor
  · intro o c R
    rfl
  · unfold forward_indexed
    apply set_atoms_indexed_middle
    intro g
    apply add_atom_indexed_eq_self
    intro t i j k hc
    obtain ⟨-, -, -, h1, h2, h3, h4, h5, h6⟩ := hc
    dsimp only at h1 h2 h3 h4 h5 h6
    rcases h with h | h | h <;> omega

/-- Witness for C2: a grid with dim = 3 voxels per side, origin at the
world origin, and an atom at x = 100 with radius 0: the x bounds are
[100, 2], empty, so the atom is skipped. -/
theorem get_bounds_formula_and_skip_witness :
    ((boundsX (gm_init (GridMaker.construct 1 6 false 1 1) 1 2 false 1 1) (0, 0, 0)
        ⟨100, 0, 0, 0⟩).2 <
      (boundsX (gm_init (GridMaker.construct 1 6 false 1 1) 1 2 false 1 1) (0, 0, 0)
        ⟨100, 0, 0, 0⟩).1) ∧
    forward_indexed (gm_init (GridMaker.construct 1 6 false 1 1) 1 2 false 1 1)
        (1, 1, 1) 1 [(⟨100, 0, 0, 0⟩, 0)] (fun _ _ _ _ => 0) =
      forward_indexed (gm_init (GridMaker.construct 1 6 false 1 1) 1 2 false 1 1)
        (1, 1, 1) 1 [] (fun _ _ _ _ => 0) := by
  have horigin : get_grid_origin
      (gm_init (GridMaker.construct 1 6 false 1 1) 1 2 false 1 1) (1, 1, 1) =
      ((0 : ℝ), (0 : ℝ), (0 : ℝ)) := by
    norm_num [get_grid_origin, gm_init]
  have hx : (boundsX (gm_init (GridMaker.construct 1 6 false 1 1) 1 2 false 1 1)
      (0, 0, 0) ⟨100, 0, 0, 0⟩).2 <
      (boundsX (gm_init (GridMaker.construct 1 6 false 1 1) 1 2 false 1 1)
      (0, 0, 0) ⟨100, 0, 0, 0⟩).1 := by
    norm_num [boundsX, get_bounds_1d, densityrad, gm_init, frmOf, cround]
  refine ⟨hx, ?_⟩
  have := (get_bounds_formula_and_skip
      (gm_init (GridMaker.construct 1 6 false 1 1) 1 2 false 1 1) (1, 1, 1) 1
      [] [] ⟨100, 0, 0, 0⟩ 0 (fun _ _ _ _ => 0) (Or.inl (by rw [horigin]; exact hx))).2
  simpa using this

/-- C9 counterexample: the setters visible in the header do not
recompute the cached coefficients.  Applied to a state whose A field
disagrees with the configuration-determined value (here A = 42 under
gaussian_radius_multiple 1, whose coefficient is 4·exp(-2)),
set_resolution leaves A at 42, still different from the value the
configuration determines; so the claim that every configuration setter
recomputes A, B, C, D, E is false of the code. -/
theorem setters_do_not_recompute_coefficients :
    (set_resolution
        ⟨1, 1, 1, 1, 3/2, 42, 0, 0, 0, 0, false, 2⟩ 1).A = 42 ∧
    coefA (set_resolution
        ⟨1, 1, 1, 1, 3/2, 42, 0, 0, 0, 0, false, 2⟩ 1).gaussian_radius_multiple ≠ 42 := by
  refine ⟨rfl, ?_⟩
  have h32 : frmOf 1 = 3 / 2 := by norm_num [frmOf]
  have hA : coefA 1 = 4 * Real.exp (-2) := by
    rw [coefA, h32]
    norm_num
    ring
  have hlt : Real.exp (-2) < 1 := Real.exp_lt_one_iff.mpr (by norm_num)
  have : coefA (set_resolution
      ⟨1, 1, 1, 1, 3/2, 42, 0, 0, 0, 0, false, 2⟩ 1).gaussian_radius_multiple =
      coefA 1 := rfl
  rw [this, hA]
  nlinarith [Real.exp_pos (-2 : ℝ)]

/-- C9 amended: set_resolution, set_dimension and set_binary do not
recompute the cached coefficients A, B, C, D, E (only initialize
does); nevertheless, in every configuration reachable via initialize
and those setters the coefficients equal the values determined by the
current configuration, because they depend only on
gaussian_radius_multiple, which no setter other than initialize
changes — so they are never stale. -/
theorem coefficients_never_stale (s : GridMaker) (h : Reachable s) :
    s.A = coefA s.gaussian_radius_multiple ∧
    s.B = coefB s.gaussian_radius_multiple ∧
    s.C = coefC s.gaussian_radius_multiple ∧
    s.D = coefD s.gaussian_radius_multiple ∧
    s.E = coefE s.gaussian_radius_multiple := by
  induction h with
  | init s res d bin rscale grm => exact ⟨rfl, rfl, rfl, rfl, rfl⟩
  | set_res s r _ ih => exact ih
  | set_dim s d _ ih => exact ih
  | set_bin s b _ ih => exact ih

/-- Witness for C9's amended statement at the configuration
initialize(res=1, d=6, G=1). -/
theorem coefficients_never_stale_witness :
    Reachable (set_binary (gm_init (GridMaker.construct 1 6 false 1 1) 1 6 false 1 1) true) ∧
    (set_binary (gm_init (GridMaker.construct 1 6 false 1 1) 1 6 false 1 1) true).A =
      coefA (set_binary (gm_init (GridMaker.construct 1 6 false 1 1) 1 6 false 1 1)
        true).gaussian_radius_multiple :=
  ⟨Reachable.set_bin _ true (Reachable.init _ 1 6 false 1 1),
   (coefficients_never_stale _
     (Reachable.set_bin _ true (Reachable.init _ 1 6 false 1 1))).1⟩

/-- The property asserted by claim C6 about one atom of a vector-typed
backward call: type_gradients[n][t] is the sum, over the voxels of atom
n's bounding box, of diff[t][i][j][k] times atom n's own density at
that voxel; consequently it is exactly 0 whenever diff[t] vanishes on
the whole bounding box, regardless of the atom's type weights. -/
def TypeGradientSpec (s : GridMaker) (center : Vec3) (T : ℕ)
    (atoms : List (Atom × (ℤ → ℝ))) (diff : Grid4) (n : ℕ) (a : Atom)
    (t : ℤ) : Prop :=
  ((backward_vector s center T atoms diff).2 n t =
    boxSum s (get_grid_origin s center) a (fun i j k =>
      diff t i j k *
        calc_point s a.x a.y a.z a.radius
          (grid_point s (get_grid_origin s center) i j k))) ∧
  ((∀ i j k, InBox s (get_grid_origin s center) a i j k → diff t i j k = 0) →
    (backward_vector s center T atoms diff).2 n t = 0)

/-- C6: in vector-typing mode, backward sets type_gradients[n][t] to
the sum over voxels in atom n's bounding box of diff[t][i][j][k]·f(d),
the density of atom n alone at that voxel; in particular it is exactly
0 for every channel on which diff vanishes throughout the bounding box,
even when type_vector[n][t] is nonzero. -/
theorem type_gradient_is_density_weighted_sum (s : GridMaker) (center : Vec3)
    (T : ℕ) (atoms : List (Atom × (ℤ → ℝ))) (diff : Grid4) (n : ℕ) (a : Atom)
    (tv : ℤ → ℝ) (t : ℤ) (hmem : atoms[n]? = some (a, tv)) (h0 : 0 ≤ t)
    (hT : t < (T : ℤ)) :
    TypeGradientSpec s center T atoms diff n a t := by
  have hval : (backward_vector s center T atoms diff).2 n t =
      calc_type_gradient_cpu s (get_grid_origin s center) a (diff t) := by
    simp only [backward_vector, hmem]
    exact if_pos ⟨h0, hT⟩
  constructor
  · rw [hval]
    rfl
  · intro hz
    rw [hval]
    apply boxSum_eq_zero
    intro i j k hin
    rw [hz i j k hin, zero_mul]

/-- Witness for C6: a single atom with full weight on channel 0 and an
all-zero diff grid gets type gradient 0 on channel 0: the upstream
gradient vanishes everywhere, so nothing flows into the type weight
even though the weight is 1. -/
theorem type_gradient_is_density_weighted_sum_witness :
    (([(Atom.mk 0 0 0 1, fun _ => (1 : ℝ))] :
        List (Atom × (ℤ → ℝ)))[0]? = some (Atom.mk 0 0 0 1, fun _ => (1 : ℝ))) ∧
    (0 : ℤ) ≤ 0 ∧ (0 : ℤ) < ((1 : ℕ) : ℤ) ∧
    TypeGradientSpec (GridMaker.construct 1 2 false 1 1) (1, 1, 1) 1
      [(Atom.mk 0 0 0 1, fun _ => (1 : ℝ))] (fun _ _ _ _ => 0) 0
      (Atom.mk 0 0 0 1) 0 :=
  ⟨rfl, le_refl 0, by norm_num,
   type_gradient_is_density_weighted_sum (GridMaker.construct 1 2 false 1 1)
     (1, 1, 1) 1 [(Atom.mk 0 0 0 1, fun _ => (1 : ℝ))] (fun _ _ _ _ => 0) 0
     (Atom.mk 0 0 0 1) (fun _ => (1 : ℝ)) 0 rfl (le_refl 0) (by norm_num)⟩

lemma calc_point_eq (s : GridMaker) (ax ay az ar : ℝ) (p : Vec3) :
    calc_point s ax ay az ar p =
      if adist ax ay az p < s.radius_scale * ar then
        Real.exp (-2 * adist ax ay az p ^ 2 / (s.radius_scale * ar) ^ 2)
      else if adist ax ay az p < s.final_radius_multiple * (s.radius_scale * ar) then
        s.A * (adist ax ay az p / (s.radius_scale * ar)) ^ 2 +
          s.B * (adist ax ay az p / (s.radius_scale * ar)) + s.C
      else 0 := rfl

/-- The property asserted by claim C1 about the density kernel at one
atom (position (ax,ay,az), base radius ar) and one world point p, with
d the Euclidean distance, r = radius_scale·ar the scaled radius and
F = final_radius_multiple: calc_point returns exp(-2d²/r²) for d < r, a
quadratic in d on [r, F·r), and 0 beyond; and the quadratic's
coefficients make the piecewise function agree with the Gaussian at
d = r and vanish at d = F·r. -/
def DensitySpec (s : GridMaker) (ax ay az ar : ℝ) (p : Vec3) : Prop :=
  (adist ax ay az p < s.radius_scale * ar →
    calc_point s ax ay az ar p =
      Real.exp (-2 * adist ax ay az p ^ 2 / (s.radius_scale * ar) ^ 2)) ∧
  (s.radius_scale * ar ≤ adist ax ay az p →
    adist ax ay az p < s.final_radius_multiple * (s.radius_scale * ar) →
    calc_point s ax ay az ar p =
      s.A / (s.radius_scale * ar) ^ 2 * adist ax ay az p ^ 2 +
        s.B / (s.radius_scale * ar) * adist ax ay az p + s.C) ∧
  (s.final_radius_multiple * (s.radius_scale * ar) ≤ adist ax ay az p →
    calc_point s ax ay az ar p = 0) ∧
  s.A / (s.radius_scale * ar) ^ 2 * (s.radius_scale * ar) ^ 2 +
      s.B / (s.radius_scale * ar) * (s.radius_scale * ar) + s.C =
    Real.exp (-2 * (s.radius_scale * ar) ^ 2 / (s.radius_scale * ar) ^ 2) ∧
  s.A / (s.radius_scale * ar) ^ 2 *
        (s.final_radius_multiple * (s.radius_scale * ar)) ^ 2 +
      s.B / (s.radius_scale * ar) *
        (s.final_radius_multiple * (s.radius_scale * ar)) + s.C = 0

/-- C1: for every atom with base radius ar > 0 and every voxel world
point, the density kernel calc_point (used by forward) of an
initialized GridMaker returns the piecewise value f(d; r) with
r = radius_scale·ar: the Gaussian exp(-2d²/r²) when d < r, the
quadratic A·d² + B·d + C (coefficients scaled per atom radius) when
r ≤ d < final_radius_multiple·r, and 0 when
d ≥ final_radius_multiple·r; the quadratic coefficients make f
continuous at d = r (both sides equal exp(-2)) and make
f(final_radius_multiple·r) = 0. -/
theorem calc_point_piecewise_density (s0 : GridMaker) (res dd : ℝ) (bin : Bool)
    (rscale grm ax ay az ar : ℝ) (p : Vec3) (hg : 0 < grm) (hs : 0 < rscale)
    (ha : 0 < ar) :
    DensitySpec (gm_init s0 res dd bin rscale grm) ax ay az ar p := by
  have hr : (0 : ℝ) < rscale * ar := mul_pos hs ha
  have hrne : rscale * ar ≠ 0 := hr.ne'
  have hF : 1 < frmOf grm := one_lt_frmOf hg
  have hFne : frmOf grm - 1 ≠ 0 := sub_ne_zero.mpr (ne_of_gt hF)
  refine ⟨?_, ?_, ?_, ?_, ?_⟩
  · intro hd
    rw [calc_point_eq]
    exact if_pos hd
  · intro h1 h2
    rw [calc_point_eq, if_neg (not_lt.mpr h1), if_pos h2]
    rw [div_pow]
    ring
  · intro h3
    rw [calc_point_eq]
    dsimp only [gm_init] at h3 ⊢
    have hrF : rscale * ar ≤ frmOf grm * (rscale * ar) := by
      nlinarith
    rw [if_neg (not_lt.mpr (le_trans hrF h3)), if_neg (not_lt.mpr h3)]
  · show coefA grm / (rscale * ar) ^ 2 * (rscale * ar) ^ 2 +
        coefB grm / (rscale * ar) * (rscale * ar) + coefC grm =
      Real.exp (-2 * (rscale * ar) ^ 2 / (rscale * ar) ^ 2)
    rw [div_mul_cancel₀ _ (pow_ne_zero 2 hrne), div_mul_cancel₀ _ hrne,
      mul_div_assoc, div_self (pow_ne_zero 2 hrne), mul_one]
    exact coef_sum grm
  · show coefA grm / (rscale * ar) ^ 2 *
          (frmOf grm * (rscale * ar)) ^ 2 +
        coefB grm / (rscale * ar) * (frmOf grm * (rscale * ar)) + coefC grm = 0
    have hrw : coefA grm / (rscale * ar) ^ 2 *
          (frmOf grm * (rscale * ar)) ^ 2 +
        coefB grm / (rscale * ar) * (frmOf grm * (rscale * ar)) + coefC grm =
        coefA grm * frmOf grm ^ 2 + coefB grm * frmOf grm + coefC grm := by
      field_simp
      ring
    rw [hrw]
    exact coef_at_frm hFne

/-- Witness for C1 at the default configuration (G = 1, radius scale 1)
with a unit-radius atom. -/
theorem calc_point_piecewise_density_witness :
    (0 : ℝ) < 1 ∧
    DensitySpec (gm_init (GridMaker.construct 1 6 false 1 1) (1/2) 6 false 1 1)
      0 0 0 1 (1, 0, 0) :=
  ⟨one_pos,
   calc_point_piecewise_density (GridMaker.construct 1 6 false 1 1) (1/2) 6 false
     1 1 0 0 0 1 (1, 0, 0) one_pos one_pos one_pos⟩

end LibMolGrid
